import Mathlib

/-!
Shallow embedding of the garage payment tracking core
(`src/app/services/payment_tracker_service.py` and
`src/app/services/file_reader_service.py`).

Conventions of the embedding:
* Python `datetime.date` values are year/month/day triples (`PDate`); the
  difference `(a - b).days` of two dates is the difference of their
  proleptic Gregorian ordinals (`days_between`).
* Python `float` amounts are modelled as exact rationals: every amount in
  play is parsed from a short decimal string and compared with `==` only.
* pandas DataFrames are lists of rows in table order; `iterrows` is list
  traversal and boolean-mask filtering is `List.filter`.
* A raised exception (`ValueError`, `KeyError`) is an `Except.error`;
  service methods that read and write instance attributes take and return
  an explicit service record.
* Regular-expression character classes (`\d`, `\s`) are modelled over their
  ASCII members, which covers the digits and separators the patterns target.
-/

/-- A calendar date as Python's `datetime.date` carries it (year, month, day).
The structure itself does not enforce validity; theorems that need a real
month restrict to `1 ≤ month ≤ 12`. -/
structure PDate where
  year : Nat
  month : Nat
  day : Nat
deriving DecidableEq

/-- `calendar.isleap`: divisible by 4 and (not by 100 or by 400). -/
def is_leap_year (year : Nat) : Bool :=
  year % 4 == 0 && (year % 100 != 0 || year % 400 == 0)

/-- `calendar.monthrange(year, month)[1]`: the number of days in the month. -/
def days_in_month (year : Nat) (month : Nat) : Nat :=
  match month with
  | 2 => if is_leap_year year then 29 else 28
  | 4 => 30
  | 6 => 30
  | 9 => 30
  | 11 => 30
  | _ => 31

/-- Days in the months of `year` strictly before `month`. -/
def days_before_month (year month : Nat) : Nat :=
  (List.range (month - 1)).foldl (fun acc m => acc + days_in_month year (m + 1)) 0

/-- `datetime.date.toordinal`: day number in the proleptic Gregorian
calendar, with 0001-01-01 as day 1. -/
def to_ordinal (d : PDate) : Nat :=
  365 * (d.year - 1) + (d.year - 1) / 4 - (d.year - 1) / 100 + (d.year - 1) / 400
    + days_before_month d.year d.month + d.day

/-- `(a - b).days` on Python dates. -/
def days_between (a b : PDate) : Int :=
  (to_ordinal a : Int) - (to_ordinal b : Int)

/-- `PaymentStatus.RECEIVED` (payment_tracker_service.py line 13). -/
def PaymentStatusRECEIVED : String := "получен"

/-- `PaymentStatus.OVERDUE` (line 14). -/
def PaymentStatusOVERDUE : String := "просрочен"

/-- `PaymentStatus.NOT_DUE` (line 15). -/
def PaymentStatusNOT_DUE : String := "срок не наступил"

/-- One processed bank-statement row: `{payment_date, amount, description}`
as built by `process_bank_statement_data`. -/
structure BankTransaction where
  payment_date : PDate
  amount : Rat
  description : String
deriving DecidableEq

/-- One processed rent row with the canonical columns used by
`generate_payment_report`. -/
structure RentRow where
  garage_name : String
  payment_amount : Rat
  payment_date : PDate
  tenant_name : String
deriving DecidableEq

/-- The dict `_find_matching_payment` returns on success
(`{"payment_date": ..., "amount": ..., "description": ...}`). -/
structure MatchingPayment where
  payment_date : PDate
  amount : Rat
  description : String
deriving DecidableEq

/-- `_adjust_payment_date` (payment_tracker_service.py lines 42–67): if the
day is 29/30/31 and exceeds the month's last day, move to the last day. -/
def adjust_payment_date (payment_date : PDate) : PDate :=
  let last_day := days_in_month payment_date.year payment_date.month
  if (payment_date.day = 29 ∨ payment_date.day = 30 ∨ payment_date.day = 31)
      ∧ payment_date.day > last_day then
    ⟨payment_date.year, payment_date.month, last_day⟩
  else
    payment_date

/-- `_find_matching_payment` (lines 69–114): filter the bank rows to those
with exactly the expected amount, then return the first of them whose date
lies within `tolerance_days` of the expected date, rebuilt as the result
dict; `none` when the table or the amount filter is empty or no date fits. -/
def find_matching_payment (bank_data : List BankTransaction) (garage_name : String)
    (expected_amount : Rat) (expected_date : PDate) (tolerance_days : Nat) :
    Option MatchingPayment :=
  if bank_data.isEmpty then
    none
  else
    let matching_amount := bank_data.filter (fun t => decide (t.amount = expected_amount))
    if matching_amount.isEmpty then
      none
    else
      match matching_amount.find?
          (fun payment => decide ((days_between payment.payment_date expected_date).natAbs
            ≤ tolerance_days)) with
      | some payment => some ⟨payment.payment_date, payment.amount, payment.description⟩
      | none => none

/-- `_determine_payment_status` (lines 116–152). The Python default
`current_date = date.today()` is outside the model: the reference date is
always passed explicitly, as `generate_payment_report` does. -/
def determine_payment_status (expected_date : PDate)
    (matching_payment : Option MatchingPayment) (current_date : PDate) : String :=
  match matching_payment with
  | some _ => PaymentStatusRECEIVED
  | none =>
    let days_since_expected := days_between current_date expected_date
    if days_since_expected < 0 then
      PaymentStatusNOT_DUE
    else if days_since_expected > 3 then
      PaymentStatusOVERDUE
    else
      PaymentStatusNOT_DUE

/-- One row of the generated report (the dict of lines 201–208). -/
structure PaymentReportRow where
  garage_name : String
  expected_payment_date : PDate
  payment_amount : Rat
  status : String
  tenant_name : String
  actual_payment_date : Option PDate
deriving DecidableEq

/-- The instance state of `PaymentTrackerService` (lines 23–26). -/
structure PaymentTrackerService where
  rent_data : Option (List RentRow)
  bank_data : Option (List BankTransaction)
  payment_report : Option (List PaymentReportRow)
deriving DecidableEq

/-- The loop body of `generate_payment_report` (lines 176–210) for one rent
row: adjust the date, find a match with the default tolerance 3, classify,
and record the matched transaction's date if any. -/
def report_entry (bank_data : List BankTransaction) (current_date : PDate)
    (garage : RentRow) : PaymentReportRow :=
  let adjusted_date := adjust_payment_date garage.payment_date
  let matching_payment :=
    find_matching_payment bank_data garage.garage_name garage.payment_amount adjusted_date 3
  let status := determine_payment_status adjusted_date matching_payment current_date
  let actual_payment_date :=
    match matching_payment with
    | some p => some p.payment_date
    | none => none
  { garage_name := garage.garage_name
    expected_payment_date := adjusted_date
    payment_amount := garage.payment_amount
    status := status
    tenant_name := garage.tenant_name
    actual_payment_date := actual_payment_date }

/-- `generate_payment_report` (lines 154–223): raise unless both inputs are
set, else build one report row per rent row in table order and store the
report on the service (line 217). The status-summary logging of line 220
then reads the `"status"` column of the stored DataFrame; `pd.DataFrame([])`
has no columns, so an empty rent table raises `KeyError('status')` there —
after the (empty) report was already stored. -/
def generate_payment_report (s : PaymentTrackerService) (current_date : PDate) :
    Except String (List PaymentReportRow) × PaymentTrackerService :=
  match s.rent_data, s.bank_data with
  | some rent, some bank =>
    let report := rent.map (report_entry bank current_date)
    if report.isEmpty then
      (Except.error "KeyError: 'status'", { s with payment_report := some report })
    else
      (Except.ok report, { s with payment_report := some report })
  | _, _ =>
    (Except.error "Rent and bank data must be set before generating report", s)

/-- `value_counts().get(status, 0)` over the report: the number of rows
carrying `status`, zero when the status does not occur. -/
def status_count (report : List PaymentReportRow) (status : String) : Nat :=
  report.countP (fun r => decide (r.status = status))

/-- The summary dict of `get_payment_summary` (lines 237–243), without the
redundant `status_breakdown` mapping (each per-status entry of which is the
same `value_counts()` count that the three fixed keys already expose). -/
structure PaymentSummary where
  total_garages : Nat
  received_payments : Nat
  overdue_payments : Nat
  not_due_payments : Nat
deriving DecidableEq

/-- `get_payment_summary` (lines 225–245): raise unless a report was
generated; line 235 reads the `"status"` column, which does not exist on an
empty stored report (`KeyError('status')`); otherwise count rows per status
(absent statuses count zero). -/
def get_payment_summary (s : PaymentTrackerService) :
    Except String PaymentSummary × PaymentTrackerService :=
  match s.payment_report with
  | none => (Except.error "Payment report must be generated first", s)
  | some report =>
    if report.isEmpty then
      (Except.error "KeyError: 'status'", s)
    else
      (Except.ok
        { total_garages := report.length
          received_payments := status_count report PaymentStatusRECEIVED
          overdue_payments := status_count report PaymentStatusOVERDUE
          not_due_payments := status_count report PaymentStatusNOT_DUE }, s)

/-- `get_overdue_payments` (lines 270–283): raise unless a report was
generated; line 280 reads the `"status"` column, which does not exist on an
empty stored report (`KeyError('status')`); otherwise filter the report to
the OVERDUE rows. -/
def get_overdue_payments (s : PaymentTrackerService) :
    Except String (List PaymentReportRow) × PaymentTrackerService :=
  match s.payment_report with
  | none => (Except.error "Payment report must be generated first", s)
  | some report =>
    if report.isEmpty then
      (Except.error "KeyError: 'status'", s)
    else
      (Except.ok (report.filter (fun r => decide (r.status = PaymentStatusOVERDUE))), s)

/-! ### File reader service (`src/app/services/file_reader_service.py`) -/

/-- `str.lower()` on the characters the rent-column keywords use: ASCII
letters and the Russian alphabet (А–Я and Ё). -/
def lower_char (c : Char) : Char :=
  if 'A' ≤ c ∧ c ≤ 'Z' then Char.ofNat (c.toNat + 32)
  else if 0x410 ≤ c.toNat ∧ c.toNat ≤ 0x42F then Char.ofNat (c.toNat + 0x20)
  else if c.toNat = 0x401 then Char.ofNat 0x451
  else c

/-- Python's `needle in haystack` on strings: substring containment. -/
def contains_sub (needle : List Char) : List Char → Bool
  | [] => needle.isEmpty
  | c :: rest => needle.isPrefixOf (c :: rest) || contains_sub needle rest

/-- The keyword list for the garage column (file_reader_service.py
lines 79–85). -/
def garage_names : List String :=
  ["гараж", "garage", "номер гаража", "garage number", "garage_name"]

/-- The keyword list for the amount column (lines 86–92). -/
def amount_names : List String :=
  ["сумма", "amount", "payment_amount", "сумма оплаты", "payment amount"]

/-- The keyword list for the date column (lines 93–100). -/
def date_names : List String :=
  ["дата", "date", "payment_date", "дата оплаты", "первоначальная дата", "initial date"]

/-- `any(name in col_lower for name in names)` after `col.lower()`. -/
def label_matches (names : List String) (col : String) : Bool :=
  names.any (fun name => contains_sub name.data (col.data.map lower_char))

/-- `_detect_rent_columns` (lines 65–126): the `column_mapping` dict as an
association list, one entry per field in insertion order (garage, amount,
date), each bound to the first matching column label if any. -/
def detect_rent_columns (columns : List String) : List (String × String) :=
  (match columns.find? (label_matches garage_names) with
   | some col => [("garage_name", col)]
   | none => []) ++
  (match columns.find? (label_matches amount_names) with
   | some col => [("payment_amount", col)]
   | none => []) ++
  (match columns.find? (label_matches date_names) with
   | some col => [("payment_date", col)]
   | none => [])

/-- The `ValueError` of `process_rent_data` lines 238–242: the missing
required fields and the available column labels. -/
structure MissingColumnsFailure where
  missing : List String
  available : List String
deriving DecidableEq

/-- `required_columns` of line 235, in source order. -/
def required_columns : List String := ["garage_name", "payment_amount", "payment_date"]

/-- `process_rent_data` (lines 219–260) up to the required-column
validation: detect the column mapping and either return it or fail with the
missing fields and the available columns. The later rename / date-parse /
tenant-placeholder steps operate on cell values the claims do not touch. -/
def process_rent_data (columns : List String) :
    Except MissingColumnsFailure (List (String × String)) :=
  let column_mapping := detect_rent_columns columns
  let missing_columns :=
    required_columns.filter (fun col => (column_mapping.lookup col).isNone)
  if missing_columns.isEmpty then
    Except.ok column_mapping
  else
    Except.error ⟨missing_columns, columns⟩

/-- A bank-statement DataFrame: `num_cols` columns of position-addressed
string cells (`astype(str)` is applied before every pattern test). Rows are
assumed rectangular; a short row reads as empty cells. -/
structure BankTable where
  num_cols : Nat
  rows : List (List String)
deriving DecidableEq

/-- `row.iloc[i]` as a string. -/
def cell (row : List String) (i : Nat) : String :=
  row.getD i ""

/-- The ASCII members of the regex class `\s` (also what `str.strip()` and
`float()` strip). -/
def py_space (c : Char) : Bool :=
  c = ' ' || c = '\t' || c = '\n' || c = '\r' || c = '\x0b' || c = '\x0c'

/-- `str.strip()`: drop leading and trailing whitespace. -/
def py_strip (l : List Char) : List Char :=
  ((l.dropWhile py_space).reverse.dropWhile py_space).reverse

/-- Whether the regex `\d{2}\.\d{2}\.\d{4}` matches at the head of the
character list. -/
def date_pattern_at : List Char → Bool
  | d1 :: d2 :: '.' :: m1 :: m2 :: '.' :: y1 :: y2 :: y3 :: y4 :: _ =>
    d1.isDigit && d2.isDigit && m1.isDigit && m2.isDigit
      && y1.isDigit && y2.isDigit && y3.isDigit && y4.isDigit
  | _ => false

/-- `re.search(r"\d{2}\.\d{2}\.\d{4}", s)` succeeds: the pattern matches at
some position. -/
def contains_date_pattern : List Char → Bool
  | [] => false
  | c :: rest => date_pattern_at (c :: rest) || contains_date_pattern rest

/-- `re.search(r"\d{2}\.\d{2}\.\d{4}", s).group()`: the first (leftmost)
ten-character match. -/
def first_date_match : List Char → Option (List Char)
  | [] => none
  | c :: rest =>
    if date_pattern_at (c :: rest) then some ((c :: rest).take 10)
    else first_date_match rest

/-- The numeric value of a run of decimal digits. -/
def digits_to_nat (l : List Char) : Nat :=
  l.foldl (fun acc c => 10 * acc + (c.toNat - '0'.toNat)) 0

/-- `datetime.strptime(s, "%d.%m.%Y").date()` on a ten-character
`DD.MM.YYYY` candidate: parse the fields and validate them exactly as the
`datetime` constructor does (month 1–12, day 1..last day, year ≥ 1);
anything else raises, i.e. returns `none`. -/
def strptime_date (l : List Char) : Option PDate :=
  match l with
  | [d1, d2, '.', m1, m2, '.', y1, y2, y3, y4] =>
    if d1.isDigit && d2.isDigit && m1.isDigit && m2.isDigit
        && y1.isDigit && y2.isDigit && y3.isDigit && y4.isDigit then
      let day := digits_to_nat [d1, d2]
      let month := digits_to_nat [m1, m2]
      let year := digits_to_nat [y1, y2, y3, y4]
      if 1 ≤ year ∧ 1 ≤ month ∧ month ≤ 12 ∧ 1 ≤ day ∧ day ≤ days_in_month year month then
        some ⟨year, month, day⟩
      else
        none
    else
      none
  | _ => none

/-- Containment test for the amount-column scoring regex
`[+-]?\d+[\s,]*\d*[,.]?\d*`: a search succeeds exactly when the string
holds a decimal digit, since the mandatory `\d+` needs one and a lone digit
already matches with every optional part empty. -/
def contains_amount_pattern (l : List Char) : Bool :=
  l.any Char.isDigit

/-- Whether `[\s,]\d{3}|[,.]\d{2}` (the "currency-like" test of
line 184) matches at the head of the character list. -/
def currency_like_at (l : List Char) : Bool :=
  match l with
  | c :: d1 :: d2 :: rest =>
    ((c = ',' || c = '.') && d1.isDigit && d2.isDigit) ||
    (match rest with
     | d3 :: _ => (py_space c || c = ',') && d1.isDigit && d2.isDigit && d3.isDigit
     | [] => false)
  | _ => false

/-- `re.search(r"[\s,]\d{3}|[,.]\d{2}", s)` succeeds. -/
def contains_currency_like : List Char → Bool
  | [] => false
  | c :: rest => currency_like_at (c :: rest) || contains_currency_like rest

/-- `re.search(r"^[+-]", val.strip())` succeeds (line 187). -/
def has_leading_sign (l : List Char) : Bool :=
  match py_strip l with
  | c :: _ => c = '+' || c = '-'
  | [] => false

/-- `df.head(50)` (line 145). -/
def sample_rows (t : BankTable) : List (List String) :=
  t.rows.take 50

/-- The date-column scan of `_detect_bank_statement_columns`
(lines 147–155): the first column position whose sampled cells contain a
`DD.MM.YYYY`-shaped substring. -/
def detect_date_col (t : BankTable) : Option Nat :=
  (List.range t.num_cols).find?
    (fun i => (sample_rows t).any (fun r => contains_date_pattern (cell r i).data))

/-- The score of one candidate amount column (lines 163–198): number of
sampled cells matching the signed-numeric pattern, plus 2 per matching cell
that also looks currency-shaped, plus 1 per matching cell with a leading
sign; 0 when no cell matches. -/
def amount_score (t : BankTable) (i : Nat) : Nat :=
  let matched :=
    ((sample_rows t).map (fun r => cell r i)).filter
      (fun v => contains_amount_pattern v.data)
  if matched.length = 0 then 0
  else
    matched.length
      + 2 * matched.countP (fun v => contains_currency_like v.data)
      + matched.countP (fun v => has_leading_sign v.data)

/-- The amount-column scan (lines 157–204): over column positions in order,
skipping the date column, keep the first position attaining the strictly
highest positive score. -/
def detect_amount_col (t : BankTable) (date_col_idx : Option Nat) : Option Nat :=
  ((List.range t.num_cols).foldl
    (fun best i =>
      if date_col_idx = some i then best
      else
        let score := amount_score t i
        if score > best.2 then (some i, score) else best)
    ((none : Option Nat), 0)).1

/-- The description-column scan (lines 206–215): the first position that is
neither the date nor the amount column and has a sampled cell of positive
string length. -/
def detect_desc_col (t : BankTable) (date_col_idx amount_col_idx : Option Nat) :
    Option Nat :=
  (List.range t.num_cols).find?
    (fun i => decide (some i ≠ date_col_idx) && decide (some i ≠ amount_col_idx)
      && (sample_rows t).any (fun r => (cell r i).length > 0))

/-- `_detect_bank_statement_columns` (lines 128–217). -/
def detect_bank_statement_columns (t : BankTable) :
    Option Nat × Option Nat × Option Nat :=
  let date_col_idx := detect_date_col t
  let amount_col_idx := detect_amount_col t date_col_idx
  let desc_col_idx := detect_desc_col t date_col_idx amount_col_idx
  (date_col_idx, amount_col_idx, desc_col_idx)

/-- Membership of a character in the class `[\d\s,]` of the amount
extraction regex. -/
def amount_class_char (c : Char) : Bool :=
  c.isDigit || py_space c || c = ','

/-- Whether `[+-]?[\d\s,]+` matches at the head of the character list, and
the (greedy) matched text: an optional sign must be followed by at least
one class character, a maximal run of which is consumed. -/
def amount_match_at (l : List Char) : Option (List Char) :=
  match l with
  | [] => none
  | c :: rest =>
    if c = '+' || c = '-' then
      match rest with
      | c2 :: _ =>
        if amount_class_char c2 then some (c :: rest.takeWhile amount_class_char)
        else none
      | [] => none
    else if amount_class_char c then
      some (c :: rest.takeWhile amount_class_char)
    else
      none

/-- `re.search(r"[+-]?[\d\s,]+", s).group()`: the leftmost match. -/
def first_amount_match : List Char → Option (List Char)
  | [] => none
  | c :: rest =>
    match amount_match_at (c :: rest) with
    | some m => some m
    | none => first_amount_match rest

/-- `.replace(" ", "").replace(",", ".")` (line 315): only literal spaces
are removed; commas become decimal points. -/
def normalize_amount (l : List Char) : List Char :=
  (l.filter (fun c => c ≠ ' ')).map (fun c => if c = ',' then '.' else c)

/-- `float(s)` on the strings reachable from the extraction (sign, digits,
dots and residual whitespace): strip outer whitespace, take an optional
sign, and require the body to be digits with at most one dot and at least
one digit; the value is the exact decimal. -/
def py_float (l : List Char) : Option Rat :=
  let t := py_strip l
  let signed : Bool × List Char :=
    match t with
    | '+' :: r => (false, r)
    | '-' :: r => (true, r)
    | r => (false, r)
  let body := signed.2
  if body.any Char.isDigit && body.all (fun c => c.isDigit || c = '.')
      && body.count '.' ≤ 1 then
    let int_part := body.takeWhile (fun c => c ≠ '.')
    let frac_part := (body.dropWhile (fun c => c ≠ '.')).drop 1
    let num : Int := digits_to_nat int_part * 10 ^ frac_part.length + digits_to_nat frac_part
    some (mkRat (if signed.1 then -num else num) (10 ^ frac_part.length))
  else
    none

/-- Amount extraction for one cell (lines 310–318): leftmost
`[+-]?[\d\s,]+` match, spaces removed, comma as decimal point, then
`float`. -/
def extract_amount_value (s : String) : Option Rat :=
  (first_amount_match s.data).bind (fun m => py_float (normalize_amount m))

/-- The loop body of `process_bank_statement_data` (lines 299–337) on one
date-bearing row: extract and parse the date, extract and parse the amount,
and keep the row only when the amount is strictly positive; every failure
(`if` guard falling through or a caught exception) skips the row. -/
def process_bank_row (date_col_idx amount_col_idx : Nat) (desc_col_idx : Option Nat)
    (row : List String) : Option BankTransaction :=
  match first_date_match (py_strip (cell row date_col_idx).data) with
  | none => none
  | some date_chars =>
    match strptime_date date_chars with
    | none => none
    | some payment_date =>
      match extract_amount_value (cell row amount_col_idx) with
      | none => none
      | some amount =>
        if 0 < amount then
          let description :=
            match desc_col_idx with
            | some i => cell row i
            | none => ""
          some ⟨payment_date, amount, description⟩
        else
          none

/-- `process_bank_statement_data` (lines 262–348): detect the column
positions, fail when the date or amount column is undetected, filter to the
date-bearing rows, and collect the successfully extracted positive-amount
payments (an empty filter result short-circuits to an empty table). -/
def process_bank_statement_data (t : BankTable) :
    Except String (List BankTransaction) :=
  let cols := detect_bank_statement_columns t
  match cols.1 with
  | none => Except.error "Could not detect date column in bank statement"
  | some date_col_idx =>
    match cols.2.1 with
    | none => Except.error "Could not detect amount column in bank statement"
    | some amount_col_idx =>
      let date_rows :=
        t.rows.filter (fun r => contains_date_pattern (cell r date_col_idx).data)
      if date_rows.isEmpty then
        Except.ok []
      else
        Except.ok (date_rows.filterMap
          (process_bank_row date_col_idx amount_col_idx cols.2.2))

/-! ### Theorems -/

/-- The matcher, filter-then-scan, equals a single first-match scan with the
conjunction of both conditions. -/
theorem find_matching_payment_eq (bank : List BankTransaction) (g : String) (a : Rat)
    (d : PDate) (tol : Nat) :
    find_matching_payment bank g a d tol =
      (bank.find? (fun t => decide (t.amount = a)
          && decide ((days_between t.payment_date d).natAbs ≤ tol))).map
        (fun t => (⟨t.payment_date, t.amount, t.description⟩ : MatchingPayment)) := by
  unfold find_matching_payment
  by_cases hb : bank.isEmpty
  · rw [List.isEmpty_iff] at hb
    subst hb
    rfl
  · simp only [hb, if_false]
    by_cases hf : (bank.filter (fun t => decide (t.amount = a))).isEmpty
    · have hnil := List.isEmpty_iff.mp hf
      have hnone : bank.find? (fun t => decide (t.amount = a)
          && decide ((days_between t.payment_date d).natAbs ≤ tol)) = none := by
        rw [List.find?_eq_none]
        intro x hx
        have hx' := List.filter_eq_nil_iff.mp hnil x hx
        simp only [Bool.and_eq_true, not_and]
        intro h1 _
        exact hx' h1
      simp [hf, hnone]
    · simp only [hf, if_false]
      rw [List.find?_filter]
      have hpred : (fun t : BankTransaction =>
          decide (decide (t.amount = a) = true
            ∧ decide ((days_between t.payment_date d).natAbs ≤ tol) = true))
          = (fun t : BankTransaction => decide (t.amount = a)
              && decide ((days_between t.payment_date d).natAbs ≤ tol)) := by
        funext t
        by_cases h1 : t.amount = a <;>
          by_cases h2 : ((days_between t.payment_date d).natAbs ≤ tol) <;> simp [h1, h2]
      rw [hpred]
      cases hres : bank.find? (fun t => decide (t.amount = a)
          && decide ((days_between t.payment_date d).natAbs ≤ tol)) <;> simp

/-- Evaluation of report generation when both inputs are set: one row per
rent row is always built and stored on the service; the call returns the
report only when it is nonempty and otherwise raises the line-220
`KeyError('status')`. -/
theorem generate_payment_report_some (rent : List RentRow) (bank : List BankTransaction)
    (prev : Option (List PaymentReportRow)) (current_date : PDate) :
    generate_payment_report ⟨some rent, some bank, prev⟩ current_date =
      (if (rent.map (report_entry bank current_date)).isEmpty then
          Except.error "KeyError: 'status'"
        else
          Except.ok (rent.map (report_entry bank current_date)),
        ⟨some rent, some bank, some (rent.map (report_entry bank current_date))⟩) := by
  unfold generate_payment_report
  dsimp only
  split <;> rfl

/-- Evaluation of the summary on a stored report: the line-235
`KeyError('status')` on an empty report, the counts otherwise. -/
theorem get_payment_summary_some (rent_data : Option (List RentRow))
    (bank_data : Option (List BankTransaction)) (report : List PaymentReportRow) :
    get_payment_summary ⟨rent_data, bank_data, some report⟩ =
      (if report.isEmpty then
          Except.error "KeyError: 'status'"
        else
          Except.ok
            { total_garages := report.length
              received_payments := status_count report PaymentStatusRECEIVED
              overdue_payments := status_count report PaymentStatusOVERDUE
              not_due_payments := status_count report PaymentStatusNOT_DUE },
        ⟨rent_data, bank_data, some report⟩) := by
  unfold get_payment_summary
  dsimp only
  split <;> rfl

/-- C1: for every obligation (garage, expected amount, expected date) and every
transaction list, `_find_matching_payment` returns the first transaction in
table order whose amount is exactly equal to the expected amount and whose
absolute day difference from the expected date is at most `tolerance_days`
(the caller `generate_payment_report` always passes the default 3); if no
transaction satisfies both conditions it returns `none`, and a transaction
whose amount differs from the expected amount is never returned. -/
theorem C1_find_matching_payment (bank : List BankTransaction) (garage_name : String)
    (expected_amount : Rat) (expected_date : PDate) (tolerance_days : Nat) :
    find_matching_payment bank garage_name expected_amount expected_date tolerance_days =
      (bank.find? (fun t => decide (t.amount = expected_amount)
          && decide ((days_between t.payment_date expected_date).natAbs ≤ tolerance_days))).map
        (fun t => (⟨t.payment_date, t.amount, t.description⟩ : MatchingPayment))
    ∧ ((∀ t ∈ bank, ¬(t.amount = expected_amount
          ∧ (days_between t.payment_date expected_date).natAbs ≤ tolerance_days)) →
        find_matching_payment bank garage_name expected_amount expected_date tolerance_days = none)
    ∧ (∀ m, find_matching_payment bank garage_name expected_amount expected_date tolerance_days
          = some m → m.amount = expected_amount) := by
  refine ⟨find_matching_payment_eq bank garage_name expected_amount expected_date tolerance_days, ?_, ?_⟩
  · intro h
    rw [find_matching_payment_eq]
    have : bank.find? (fun t => decide (t.amount = expected_amount)
        && decide ((days_between t.payment_date expected_date).natAbs ≤ tolerance_days)) = none := by
      rw [List.find?_eq_none]
      intro x hx
      have := h x hx
      simp only [Bool.and_eq_true, decide_eq_true_eq]
      tauto
    rw [this]
    rfl
  · intro m hm
    rw [find_matching_payment_eq] at hm
    cases hres : bank.find? (fun t => decide (t.amount = expected_amount)
        && decide ((days_between t.payment_date expected_date).natAbs ≤ tolerance_days)) with
    | none => rw [hres] at hm; simp at hm
    | some t =>
      rw [hres] at hm
      have ht := List.find?_some hres
      simp only [Bool.and_eq_true, decide_eq_true_eq] at ht
      rw [Option.map_some'] at hm
      cases hm
      exact ht.1

/-- C2: `_determine_payment_status` is a pure function of (match found,
Δ = current date − adjusted expected date in days): a found match gives
RECEIVED; otherwise the status is NOT_DUE when Δ < 0 or 0 ≤ Δ ≤ 3, and
OVERDUE exactly when Δ > 3. -/
theorem C2_determine_payment_status (expected_date : PDate)
    (matching_payment : Option MatchingPayment) (current_date : PDate) :
    (∀ (e2 : PDate) (m2 : Option MatchingPayment) (c2 : PDate),
        matching_payment.isSome = m2.isSome →
        days_between current_date expected_date = days_between c2 e2 →
        determine_payment_status expected_date matching_payment current_date
          = determine_payment_status e2 m2 c2)
    ∧ (matching_payment.isSome →
        determine_payment_status expected_date matching_payment current_date
          = PaymentStatusRECEIVED)
    ∧ (matching_payment = none →
        ((days_between current_date expected_date < 0
            ∨ (0 ≤ days_between current_date expected_date
                ∧ days_between current_date expected_date ≤ 3)) →
          determine_payment_status expected_date matching_payment current_date
            = PaymentStatusNOT_DUE)
        ∧ (determine_payment_status expected_date matching_payment current_date
              = PaymentStatusOVERDUE
            ↔ days_between current_date expected_date > 3)) := by
  refine ⟨?_, ?_, ?_⟩
  · intro e2 m2 c2 hs hd
    cases matching_payment <;> cases m2 <;> simp_all [determine_payment_status]
  · intro hs
    cases matching_payment with
    | none => simp at hs
    | some p => rfl
  · intro hn
    subst hn
    constructor
    · intro h
      simp only [determine_payment_status]
      rcases h with h | ⟨h1, h2⟩
      · rw [if_pos h]
      · rw [if_neg (by omega), if_neg (by omega)]
    · simp only [determine_payment_status]
      by_cases h1 : days_between current_date expected_date < 0
      · rw [if_pos h1]
        exact iff_of_false (by decide) (by omega)
      · rw [if_neg h1]
        by_cases h2 : days_between current_date expected_date > 3
        · rw [if_pos h2]
          exact iff_of_true rfl h2
        · rw [if_neg h2]
          exact iff_of_false (by decide) h2

/-- C3: `_adjust_payment_date` maps a date whose day is 29, 30 or 31 and
exceeds the actual last day of its month/year to that month's last calendar
day, and returns every other date unchanged; in particular the 31st of a
30-day month maps to day 30, and the 29th/30th of February of a non-leap
year maps to the 28th. -/
theorem C3_adjust_payment_date (d : PDate) (h1 : 1 ≤ d.month) (h2 : d.month ≤ 12) :
    ((d.day = 29 ∨ d.day = 30 ∨ d.day = 31) ∧ d.day > days_in_month d.year d.month →
      adjust_payment_date d = ⟨d.year, d.month, days_in_month d.year d.month⟩)
    ∧ (¬((d.day = 29 ∨ d.day = 30 ∨ d.day = 31) ∧ d.day > days_in_month d.year d.month) →
      adjust_payment_date d = d)
    ∧ (d.day = 31 → days_in_month d.year d.month = 30 →
      adjust_payment_date d = ⟨d.year, d.month, 30⟩)
    ∧ (d.month = 2 → is_leap_year d.year = false → (d.day = 29 ∨ d.day = 30) →
      adjust_payment_date d = ⟨d.year, 2, 28⟩) := by
  refine ⟨?_, ?_, ?_, ?_⟩
  · intro h
    unfold adjust_payment_date
    rw [if_pos h]
  · intro h
    unfold adjust_payment_date
    rw [if_neg h]
  · intro hd hm
    unfold adjust_payment_date
    rw [hm, if_pos ⟨Or.inr (Or.inr hd), by omega⟩]
  · intro hm hl hd
    have h28 : days_in_month d.year d.month = 28 := by
      rw [hm]
      simp [days_in_month, hl]
    unfold adjust_payment_date
    rw [h28, if_pos ⟨by tauto, by omega⟩, hm]

/-- Witness for C3 at the concrete date 2025-02-29 (non-leap year), which
adjusts to 2025-02-28. -/
theorem C3_adjust_payment_date_witness :
    1 ≤ (⟨2025, 2, 29⟩ : PDate).month ∧ (⟨2025, 2, 29⟩ : PDate).month ≤ 12 ∧
    (adjust_payment_date ⟨2025, 2, 29⟩ = ⟨2025, 2, 28⟩) := by
  refine ⟨by decide, by decide, ?_⟩
  exact (C3_adjust_payment_date ⟨2025, 2, 29⟩ (by decide) (by decide)).2.2.2
    (by decide) (by decide) (Or.inl rfl)

/-- C7: `generate_payment_report` is deterministic: two invocations with
identical rent data, identical bank data and the same current date produce
identical reports and identical derived summaries, whatever report was
stored before; re-running generation on the resulting state reproduces the
same report. -/
theorem C7_report_deterministic (rent : List RentRow) (bank : List BankTransaction)
    (p1 p2 : Option (List PaymentReportRow)) (current_date : PDate) :
    (generate_payment_report ⟨some rent, some bank, p1⟩ current_date).1
      = (generate_payment_report ⟨some rent, some bank, p2⟩ current_date).1
    ∧ (get_payment_summary (generate_payment_report ⟨some rent, some bank, p1⟩ current_date).2).1
      = (get_payment_summary (generate_payment_report ⟨some rent, some bank, p2⟩ current_date).2).1
    ∧ (generate_payment_report
        (generate_payment_report ⟨some rent, some bank, p1⟩ current_date).2 current_date).1
      = (generate_payment_report ⟨some rent, some bank, p1⟩ current_date).1 := by
  refine ⟨?_, ?_, ?_⟩ <;> simp only [generate_payment_report_some]

/-- C9: out-of-order invocation fails fatally: `generate_payment_report`
raises unless both rent and bank data are set, and `get_payment_summary`
and `get_overdue_payments` raise before a report has been generated; in
each case the service state is returned unchanged. -/
theorem C9_preconditions (rent_data : Option (List RentRow))
    (bank_data : Option (List BankTransaction))
    (payment_report : Option (List PaymentReportRow)) (current_date : PDate) :
    ((rent_data = none ∨ bank_data = none) →
      generate_payment_report ⟨rent_data, bank_data, payment_report⟩ current_date
        = (Except.error "Rent and bank data must be set before generating report",
            ⟨rent_data, bank_data, payment_report⟩))
    ∧ (get_payment_summary ⟨rent_data, bank_data, none⟩
        = (Except.error "Payment report must be generated first", ⟨rent_data, bank_data, none⟩))
    ∧ (get_overdue_payments ⟨rent_data, bank_data, none⟩
        = (Except.error "Payment report must be generated first", ⟨rent_data, bank_data, none⟩)) := by
  refine ⟨?_, rfl, rfl⟩
  rintro (h | h)
  · subst h; cases bank_data <;> rfl
  · subst h; cases rent_data <;> rfl

/-- The classifier only ever returns one of the three statuses. -/
theorem determine_payment_status_total (e : PDate) (m : Option MatchingPayment) (c : PDate) :
    determine_payment_status e m c = PaymentStatusRECEIVED
    ∨ determine_payment_status e m c = PaymentStatusOVERDUE
    ∨ determine_payment_status e m c = PaymentStatusNOT_DUE := by
  unfold determine_payment_status
  cases m
  · dsimp only
    split
    · tauto
    · split <;> tauto
  · tauto

/-- The three per-status counts partition a report whose rows all carry one
of the three statuses. -/
theorem status_count_partition (l : List PaymentReportRow)
    (h : ∀ r ∈ l, r.status = PaymentStatusRECEIVED ∨ r.status = PaymentStatusOVERDUE
      ∨ r.status = PaymentStatusNOT_DUE) :
    status_count l PaymentStatusRECEIVED + status_count l PaymentStatusOVERDUE
      + status_count l PaymentStatusNOT_DUE = l.length := by
  induction l with
  | nil => rfl
  | cons r rest ih =>
    have hr := h r (List.mem_cons_self r rest)
    have hrest := ih (fun x hx => h x (List.mem_cons_of_mem r hx))
    unfold status_count at hrest ⊢
    rw [List.countP_cons, List.countP_cons, List.countP_cons, List.length_cons]
    have eRR : decide (PaymentStatusRECEIVED = PaymentStatusRECEIVED) = true := by decide
    have eOO : decide (PaymentStatusOVERDUE = PaymentStatusOVERDUE) = true := by decide
    have eNN : decide (PaymentStatusNOT_DUE = PaymentStatusNOT_DUE) = true := by decide
    have eRO : decide (PaymentStatusRECEIVED = PaymentStatusOVERDUE) = false := by decide
    have eRN : decide (PaymentStatusRECEIVED = PaymentStatusNOT_DUE) = false := by decide
    have eOR : decide (PaymentStatusOVERDUE = PaymentStatusRECEIVED) = false := by decide
    have eON : decide (PaymentStatusOVERDUE = PaymentStatusNOT_DUE) = false := by decide
    have eNR : decide (PaymentStatusNOT_DUE = PaymentStatusRECEIVED) = false := by decide
    have eNO : decide (PaymentStatusNOT_DUE = PaymentStatusOVERDUE) = false := by decide
    rcases hr with hr | hr | hr <;> rw [hr] <;>
      simp only [eRR, eOO, eNN, eRO, eRN, eOR, eON, eNR, eNO, decide_True, if_true, if_false,
        Bool.false_eq_true, eq_self_iff_true] <;>
      omega

/-- C10: every row of a generated report carries one of the three statuses
RECEIVED, OVERDUE, NOT_DUE (the classifier is total), the three per-status
counts partition the generated rows, and consequently whenever
`get_payment_summary` returns counts after a report generation, the three
per-status counts sum to `total_garages` (on the empty stored report it
raises instead of returning counts). -/
theorem C10_status_totality (rent : List RentRow) (bank : List BankTransaction)
    (prev : Option (List PaymentReportRow)) (current_date : PDate) :
    (∀ row ∈ rent.map (report_entry bank current_date),
        row.status = PaymentStatusRECEIVED ∨ row.status = PaymentStatusOVERDUE
          ∨ row.status = PaymentStatusNOT_DUE)
    ∧ status_count (rent.map (report_entry bank current_date)) PaymentStatusRECEIVED
        + status_count (rent.map (report_entry bank current_date)) PaymentStatusOVERDUE
        + status_count (rent.map (report_entry bank current_date)) PaymentStatusNOT_DUE
      = (rent.map (report_entry bank current_date)).length
    ∧ (∀ summary : PaymentSummary,
        (get_payment_summary
            (generate_payment_report ⟨some rent, some bank, prev⟩ current_date).2).1
          = Except.ok summary →
        summary.received_payments + summary.overdue_payments + summary.not_due_payments
          = summary.total_garages) := by
  have htot : ∀ row ∈ rent.map (report_entry bank current_date),
      row.status = PaymentStatusRECEIVED ∨ row.status = PaymentStatusOVERDUE
        ∨ row.status = PaymentStatusNOT_DUE := by
    intro row hrow
    rcases List.mem_map.mp hrow with ⟨g, hg, heq⟩
    subst heq
    exact determine_payment_status_total _ _ _
  refine ⟨htot, status_count_partition _ htot, ?_⟩
  intro summary hsum
  rw [generate_payment_report_some] at hsum
  dsimp only at hsum
  rw [get_payment_summary_some] at hsum
  dsimp only at hsum
  by_cases hemp : (rent.map (report_entry bank current_date)).isEmpty
  · rw [if_pos hemp] at hsum
    exact Except.noConfusion hsum
  · rw [if_neg hemp] at hsum
    injection hsum with h
    subst h
    exact status_count_partition _ htot

/-- C6 (amended): `generate_payment_report` builds and stores exactly one
report row per rent row, in rental-table order, each combining the adjusted
expected date, the expected amount, the classifier's status and the matched
transaction's date (`none` when unmatched). For a nonempty rent table the
report is returned and `get_payment_summary` then returns the total row
count and per-status counts, where a status absent from the report counts
as zero; for an empty rent table the status-summary logging of line 220
raises `KeyError('status')` (the empty DataFrame has no status column) and
`get_payment_summary` on the stored empty report raises the same error. -/
theorem C6_report_assembly (rent : List RentRow) (bank : List BankTransaction)
    (prev : Option (List PaymentReportRow)) (current_date : PDate) :
    (generate_payment_report ⟨some rent, some bank, prev⟩ current_date).2.payment_report
      = some (rent.map (fun garage =>
          { garage_name := garage.garage_name
            expected_payment_date := adjust_payment_date garage.payment_date
            payment_amount := garage.payment_amount
            status := determine_payment_status (adjust_payment_date garage.payment_date)
              (find_matching_payment bank garage.garage_name garage.payment_amount
                (adjust_payment_date garage.payment_date) 3) current_date
            tenant_name := garage.tenant_name
            actual_payment_date := (find_matching_payment bank garage.garage_name
              garage.payment_amount (adjust_payment_date garage.payment_date) 3).map
                (fun p => p.payment_date) }))
    ∧ (rent.map (report_entry bank current_date)).length = rent.length
    ∧ (rent ≠ [] →
        (generate_payment_report ⟨some rent, some bank, prev⟩ current_date).1
          = Except.ok (rent.map (report_entry bank current_date))
        ∧ get_payment_summary
            (generate_payment_report ⟨some rent, some bank, prev⟩ current_date).2
          = (Except.ok
              { total_garages := (rent.map (report_entry bank current_date)).length
                received_payments :=
                  status_count (rent.map (report_entry bank current_date)) PaymentStatusRECEIVED
                overdue_payments :=
                  status_count (rent.map (report_entry bank current_date)) PaymentStatusOVERDUE
                not_due_payments :=
                  status_count (rent.map (report_entry bank current_date)) PaymentStatusNOT_DUE },
              (generate_payment_report ⟨some rent, some bank, prev⟩ current_date).2))
    ∧ (rent = [] →
        (generate_payment_report ⟨some rent, some bank, prev⟩ current_date).1
          = Except.error "KeyError: 'status'"
        ∧ (get_payment_summary
            (generate_payment_report ⟨some rent, some bank, prev⟩ current_date).2).1
          = Except.error "KeyError: 'status'")
    ∧ (∀ (report : List PaymentReportRow) (st : String),
        (∀ r ∈ report, r.status ≠ st) → status_count report st = 0) := by
  have hfun : report_entry bank current_date = (fun garage =>
      { garage_name := garage.garage_name
        expected_payment_date := adjust_payment_date garage.payment_date
        payment_amount := garage.payment_amount
        status := determine_payment_status (adjust_payment_date garage.payment_date)
          (find_matching_payment bank garage.garage_name garage.payment_amount
            (adjust_payment_date garage.payment_date) 3) current_date
        tenant_name := garage.tenant_name
        actual_payment_date := (find_matching_payment bank garage.garage_name
          garage.payment_amount (adjust_payment_date garage.payment_date) 3).map
            (fun p => p.payment_date) } : RentRow → PaymentReportRow) := by
    funext garage
    unfold report_entry
    cases h : find_matching_payment bank garage.garage_name garage.payment_amount
      (adjust_payment_date garage.payment_date) 3 <;> simp [h]
  refine ⟨?_, by simp, ?_, ?_, ?_⟩
  · rw [generate_payment_report_some]
    dsimp only
    rw [hfun]
  · intro hne
    have hemp : ¬ (rent.map (report_entry bank current_date)).isEmpty = true := by
      simp [List.isEmpty_iff, hne]
    rw [generate_payment_report_some]
    dsimp only
    rw [get_payment_summary_some, if_neg hemp, if_neg hemp]
    exact ⟨rfl, rfl⟩
  · intro he
    subst he
    exact ⟨rfl, rfl⟩
  · intro report st h
    unfold status_count
    rw [List.countP_eq_zero]
    intro r hr
    simp only [decide_eq_true_eq]
    exact h r hr

/-- C6 counterexample: for the empty rent table the claim demands the
(empty) report and a zero-count summary, but `generate_payment_report`
raises `KeyError('status')` at the status-summary logging line and returns
no report at all. -/
theorem C6_counterexample :
    (generate_payment_report ⟨some [], some [], none⟩ ⟨2024, 1, 1⟩).1
      = Except.error "KeyError: 'status'"
    ∧ (∀ report, (generate_payment_report ⟨some [], some [], none⟩ ⟨2024, 1, 1⟩).1
        ≠ Except.ok report) := by
  refine ⟨rfl, ?_⟩
  intro report h
  rw [show (generate_payment_report ⟨some [], some [], none⟩ ⟨2024, 1, 1⟩).1
      = Except.error "KeyError: 'status'" from rfl] at h
  exact Except.noConfusion h

/-- `List.find?` returns the designated element when it satisfies the
predicate and is the only member doing so. -/
theorem find?_eq_some_unique {α : Type} (l : List α) (p : α → Bool) (t : α)
    (ht : t ∈ l) (hpt : p t = true) (huniq : ∀ u ∈ l, p u = true → u = t) :
    l.find? p = some t := by
  induction l with
  | nil => cases ht
  | cons x xs ih =>
    by_cases hx : p x = true
    · have hxt : x = t := huniq x (List.mem_cons_self x xs) hx
      subst hxt
      simp [List.find?_cons, hx]
    · have hxt : x ≠ t := fun h => hx (h ▸ hpt)
      have ht' : t ∈ xs := by
        rcases List.mem_cons.mp ht with h | h
        · exact absurd h.symm hxt
        · exact h
      rw [List.find?_cons]
      simp only [hx, Bool.false_eq_true, if_false]
      · exact ih ht' (fun u hu hp => huniq u (List.mem_cons_of_mem x hu) hp)

/-- C5 (amended): `generate_payment_report` never modifies the transaction
set (matched transactions are not removed or marked), so a pair of
obligations with the same expected amount whose tolerance windows both
contain a transaction's date both receive a match — each one its first
qualifying transaction, which is that very transaction whenever it is the
only one with the expected amount — and the stored bank data after report
generation equals the data before. -/
theorem C5_no_consumption (s : PaymentTrackerService) (current_date : PDate) :
    ((generate_payment_report s current_date).2.bank_data = s.bank_data
      ∧ (generate_payment_report s current_date).2.rent_data = s.rent_data)
    ∧ (∀ (bank : List BankTransaction) (rent : List RentRow),
        s.bank_data = some bank → s.rent_data = some rent →
        ∀ o1 ∈ rent, ∀ o2 ∈ rent, ∀ t ∈ bank,
          t.amount = o1.payment_amount → t.amount = o2.payment_amount →
          (days_between t.payment_date (adjust_payment_date o1.payment_date)).natAbs ≤ 3 →
          (days_between t.payment_date (adjust_payment_date o2.payment_date)).natAbs ≤ 3 →
          (find_matching_payment bank o1.garage_name o1.payment_amount
              (adjust_payment_date o1.payment_date) 3).isSome
          ∧ (find_matching_payment bank o2.garage_name o2.payment_amount
              (adjust_payment_date o2.payment_date) 3).isSome
          ∧ ((∀ u ∈ bank, u.amount = t.amount → u = t) →
              find_matching_payment bank o1.garage_name o1.payment_amount
                  (adjust_payment_date o1.payment_date) 3
                = some ⟨t.payment_date, t.amount, t.description⟩
              ∧ find_matching_payment bank o2.garage_name o2.payment_amount
                  (adjust_payment_date o2.payment_date) 3
                = some ⟨t.payment_date, t.amount, t.description⟩)) := by
  constructor
  · obtain ⟨r, b, p⟩ := s
    cases r with
    | none => cases b <;> exact ⟨rfl, rfl⟩
    | some rent =>
      cases b with
      | none => exact ⟨rfl, rfl⟩
      | some bank =>
        rw [generate_payment_report_some]
        exact ⟨rfl, rfl⟩
  · intro bank rent hb hr o1 h1 o2 h2 t htmem ha1 ha2 hw1 hw2
    have hp1 : (fun u : BankTransaction => decide (u.amount = o1.payment_amount)
        && decide ((days_between u.payment_date (adjust_payment_date o1.payment_date)).natAbs ≤ 3)) t
        = true := by
      simp only [Bool.and_eq_true, decide_eq_true_eq]
      exact ⟨ha1, hw1⟩
    have hp2 : (fun u : BankTransaction => decide (u.amount = o2.payment_amount)
        && decide ((days_between u.payment_date (adjust_payment_date o2.payment_date)).natAbs ≤ 3)) t
        = true := by
      simp only [Bool.and_eq_true, decide_eq_true_eq]
      exact ⟨ha2, hw2⟩
    refine ⟨?_, ?_, ?_⟩
    · rw [find_matching_payment_eq]
      simpa using (@List.find?_isSome BankTransaction bank (fun u : BankTransaction =>
        decide (u.amount = o1.payment_amount) &&
          decide ((days_between u.payment_date
            (adjust_payment_date o1.payment_date)).natAbs ≤ 3))).mpr ⟨t, htmem, hp1⟩
    · rw [find_matching_payment_eq]
      simpa using (@List.find?_isSome BankTransaction bank (fun u : BankTransaction =>
        decide (u.amount = o2.payment_amount) &&
          decide ((days_between u.payment_date
            (adjust_payment_date o2.payment_date)).natAbs ≤ 3))).mpr ⟨t, htmem, hp2⟩
    · intro huniq
      constructor
      · rw [find_matching_payment_eq,
          find?_eq_some_unique bank _ t htmem hp1 (fun u hu hp => by
            have : u.amount = t.amount := by
              have := (Bool.and_eq_true _ _).mp hp
              rw [ha1]
              exact of_decide_eq_true this.1
            exact huniq u hu this)]
        rfl
      · rw [find_matching_payment_eq,
          find?_eq_some_unique bank _ t htmem hp2 (fun u hu hp => by
            have : u.amount = t.amount := by
              have := (Bool.and_eq_true _ _).mp hp
              rw [ha2]
              exact of_decide_eq_true this.1
            exact huniq u hu this)]
        rfl

/-- C5 counterexample: two obligations "A" and "B" of amount 100 due
2024-01-10, bank table [(2024-01-08, 100), (2024-01-10, 100)]. The second
transaction's date lies inside both tolerance windows, yet both obligations
are matched to the *first* transaction (actual date 2024-01-08, not
2024-01-10), so the claim's "that single transaction is returned as the
match for both obligations" fails as stated. -/
theorem C5_counterexample :
    (days_between (⟨2024, 1, 10⟩ : PDate)
      (adjust_payment_date (⟨2024, 1, 10⟩ : PDate))).natAbs ≤ 3
    ∧ (generate_payment_report
        ⟨some [⟨"A", 100, ⟨2024, 1, 10⟩, "Арендатор гаража"⟩,
               ⟨"B", 100, ⟨2024, 1, 10⟩, "Арендатор гаража"⟩],
          some [⟨⟨2024, 1, 8⟩, 100, "first"⟩, ⟨⟨2024, 1, 10⟩, 100, "second"⟩],
          none⟩ ⟨2024, 1, 15⟩).1
      = Except.ok
          [⟨"A", ⟨2024, 1, 10⟩, 100, "получен", "Арендатор гаража", some ⟨2024, 1, 8⟩⟩,
           ⟨"B", ⟨2024, 1, 10⟩, 100, "получен", "Арендатор гаража", some ⟨2024, 1, 8⟩⟩]
    ∧ (some (⟨2024, 1, 8⟩ : PDate) ≠ some (⟨2024, 1, 10⟩ : PDate)) := by
  refine ⟨by decide, by rfl, by decide⟩

/-- A row that survives extraction carries a strictly positive amount. -/
theorem process_bank_row_pos (date_col_idx amount_col_idx : Nat) (desc_col_idx : Option Nat)
    (row : List String) (p : BankTransaction)
    (h : process_bank_row date_col_idx amount_col_idx desc_col_idx row = some p) :
    0 < p.amount := by
  unfold process_bank_row at h
  split at h
  · exact Option.noConfusion h
  · split at h
    · exact Option.noConfusion h
    · split at h
      · exact Option.noConfusion h
      · split at h
        · rename_i hpos
          cases h
          exact hpos
        · exact Option.noConfusion h

/-- First component of the detected column triple. -/
theorem detect_cols_fst (t : BankTable) :
    (detect_bank_statement_columns t).1 = detect_date_col t := rfl

/-- Second component of the detected column triple. -/
theorem detect_cols_snd (t : BankTable) :
    (detect_bank_statement_columns t).2.1 = detect_amount_col t (detect_date_col t) := rfl

/-- When no cell of any row holds a date-shaped substring, date-column
detection fails. -/
theorem detect_date_col_none (t : BankTable)
    (h : ∀ row ∈ t.rows, ∀ i, i < t.num_cols →
      contains_date_pattern (cell row i).data = false) :
    detect_date_col t = none := by
  unfold detect_date_col
  rw [List.find?_eq_none]
  intro i hi
  intro hcontra
  rw [List.any_eq_true] at hcontra
  rcases hcontra with ⟨r, hr, hf⟩
  have hrin : r ∈ t.rows := List.take_subset 50 t.rows (by simpa [sample_rows] using hr)
  rw [h r hrin i (List.mem_range.mp hi)] at hf
  simp at hf

/-- C4 (amended): every transaction returned by
`process_bank_statement_data` has a strictly positive amount; the amount
cell "-1 200,00" parses to -1200 and any row whose extracted amount is ≤ 0
is excluded; rows that fail date or amount extraction are skipped without
aborting the batch (once both columns are detected the call always
succeeds); an input with no date-bearing rows fails with the
missing-date-column error (not an empty transaction set: date-column
detection precedes the empty-rows check and fails first). -/
theorem C4_positive_amounts (t : BankTable) :
    (∀ res, process_bank_statement_data t = Except.ok res → ∀ p ∈ res, 0 < p.amount)
    ∧ extract_amount_value "-1 200,00" = some (-1200)
    ∧ (∀ (di ai : Nat) (di? : Option Nat) (row : List String) (v : Rat),
        extract_amount_value (cell row ai) = some v → v ≤ 0 →
        process_bank_row di ai di? row = none)
    ∧ (∀ di ai, (detect_bank_statement_columns t).1 = some di →
        (detect_bank_statement_columns t).2.1 = some ai →
        ∃ res, process_bank_statement_data t = Except.ok res)
    ∧ ((∀ row ∈ t.rows, ∀ i, i < t.num_cols →
          contains_date_pattern (cell row i).data = false) →
        process_bank_statement_data t
          = Except.error "Could not detect date column in bank statement") := by
  refine ⟨?_, by decide, ?_, ?_, ?_⟩
  · intro res h p hp
    unfold process_bank_statement_data at h
    dsimp only at h
    rcases hd : (detect_bank_statement_columns t).1 with _ | di
    · rw [hd] at h
      simp at h
    · rw [hd] at h
      rcases ha : (detect_bank_statement_columns t).2.1 with _ | ai
      · rw [ha] at h
        simp at h
      · rw [ha] at h
        dsimp only at h
        split at h
        · cases h
          cases hp
        · cases h
          rcases List.mem_filterMap.mp hp with ⟨r, hr, hrow⟩
          exact process_bank_row_pos _ _ _ _ _ hrow
  · intro di ai di? row v hv hle
    unfold process_bank_row
    split
    · rfl
    · split
      · rfl
      · split
        · rfl
        · rename_i amount hamount
          rw [hv] at hamount
          cases hamount
          rw [if_neg (by exact fun hc => absurd hle (not_le.mpr hc))]
  · intro di ai hd ha
    unfold process_bank_statement_data
    dsimp only
    rw [hd, ha]
    dsimp only
    split
    · exact ⟨[], rfl⟩
    · exact ⟨_, rfl⟩
  · intro hnod
    have hdnone : detect_date_col t = none := detect_date_col_none t hnod
    unfold process_bank_statement_data
    dsimp only
    rw [detect_cols_fst, hdnone]

/-- C4 counterexample: on a bank table with no date-bearing rows the claim
says an empty transaction set is returned, but the code raises the
date-column detection error. -/
theorem C4_counterexample :
    process_bank_statement_data ⟨1, [["hello"]]⟩
      = Except.error "Could not detect date column in bank statement"
    ∧ process_bank_statement_data ⟨1, [["hello"]]⟩ ≠ Except.ok [] := by
  refine ⟨by rfl, ?_⟩
  intro h
  rw [show process_bank_statement_data ⟨1, [["hello"]]⟩
    = Except.error "Could not detect date column in bank statement" from rfl] at h
  exact Except.noConfusion h

/-- C8: each required rent field is bound to the first column label in
table order containing one of the field's keywords case-insensitively; if
some required field has no matching column, `process_rent_data` fails with
an error carrying exactly the missing field names and all available column
labels, and no processed data is produced. -/
theorem C8_rent_columns (columns : List String) :
    ((detect_rent_columns columns).lookup "garage_name"
        = columns.find? (label_matches garage_names)
      ∧ (detect_rent_columns columns).lookup "payment_amount"
        = columns.find? (label_matches amount_names)
      ∧ (detect_rent_columns columns).lookup "payment_date"
        = columns.find? (label_matches date_names))
    ∧ (∀ e, process_rent_data columns = Except.error e →
        e.missing = required_columns.filter
          (fun f => ((detect_rent_columns columns).lookup f).isNone)
        ∧ e.missing ≠ [] ∧ e.available = columns)
    ∧ (required_columns.filter
          (fun f => ((detect_rent_columns columns).lookup f).isNone) ≠ [] →
        process_rent_data columns = Except.error
          ⟨required_columns.filter
            (fun f => ((detect_rent_columns columns).lookup f).isNone), columns⟩)
    ∧ (∀ mapping, process_rent_data columns = Except.ok mapping →
        ∀ f ∈ required_columns, ((detect_rent_columns columns).lookup f).isSome) := by
  have hlook : (detect_rent_columns columns).lookup "garage_name"
        = columns.find? (label_matches garage_names)
      ∧ (detect_rent_columns columns).lookup "payment_amount"
        = columns.find? (label_matches amount_names)
      ∧ (detect_rent_columns columns).lookup "payment_date"
        = columns.find? (label_matches date_names) := by
    unfold detect_rent_columns
    rcases hg : columns.find? (label_matches garage_names) with _ | cg <;>
      rcases ha : columns.find? (label_matches amount_names) with _ | ca <;>
        rcases hd : columns.find? (label_matches date_names) with _ | cd <;>
          simp [List.lookup]
  refine ⟨hlook, ?_, ?_, ?_⟩
  · intro e he
    unfold process_rent_data at he
    dsimp only at he
    split at he
    · exact Except.noConfusion he
    · rename_i hne
      cases he
      refine ⟨rfl, ?_, rfl⟩
      intro hnil
      dsimp only at hnil
      exact hne (List.isEmpty_iff.mpr hnil)
  · intro hne
    unfold process_rent_data
    dsimp only
    rw [if_neg (by simpa [List.isEmpty_iff] using hne)]
  · intro mapping hm f hf
    unfold process_rent_data at hm
    dsimp only at hm
    split at hm
    · rename_i hemp
      rw [List.isEmpty_iff, List.filter_eq_nil_iff] at hemp
      have hnn := hemp f hf
      cases ho : (detect_rent_columns columns).lookup f with
      | none => rw [ho] at hnn; simp at hnn
      | some c => rfl
    · exact Except.noConfusion hm
